import Mathlib

/-!
Shallow embedding of src/register_registries.py: a one-shot reconciliation
tool that registers Google Artifact Registry (GAR) repositories with the
Falcon container-scanning service (provision) and removes those
registrations again (deprovision).  Collaborator calls (Falcon API, gcloud
subprocesses, GCP listing APIs) are modelled as explicit oracle arguments;
each workflow function returns a trace of the calls it issued, so that the
claims about which calls happen on which paths become statements about
those traces.
-/

namespace RegisterRegistries

/-! ## Data model: Falcon registry entries (deprovision side) -/

/-- One resource record returned by read_registry_entities_by_uuid; the
Python code reads the fields with dict.get, so each field may be absent. -/
structure RegistryDetail where
  type : Option String
  user_defined_alias : Option String
  url : Option String
deriving DecidableEq

/-- Outcome of one read_registry_entities_by_uuid call: either the call
raised, or it returned a status code and a body whose resources key may be
absent (none) or hold a list of records. -/
inductive DetailOutcome where
  | exn : DetailOutcome
  | resp (status_code : Nat) (resources : Option (List RegistryDetail)) : DetailOutcome
deriving DecidableEq

/-- The record the cleanup loop keeps for each GAR-typed entry: the id,
the user alias and the url (with the "Unknown" defaults of the source). -/
structure GarEntry where
  id : String
  user_alias : String
  url : String
deriving DecidableEq

/-- Python str.lower restricted to the characters the tool compares
(ASCII): lower-case every character of the string. -/
def pyLower (s : String) : String :=
  ⟨s.data.map Char.toLower⟩

/-- details['body'].get('resources', [{}])[0] — a missing resources key
defaults to a single empty record (all fields absent); an empty list makes
the [0] index raise, which the enclosing except swallows (none). -/
def firstResource : Option (List RegistryDetail) → Option RegistryDetail
  | none => some { type := none, user_defined_alias := none, url := none }
  | some [] => none
  | some (r :: _) => some r

/-- Body of the per-id loop of cleanup_falcon_registries: returns the
GarEntry appended for this id, if any.  An exception, a non-200 status, an
empty resources list, or a type other than "gar" all leave the list
unchanged. -/
def processRegistryId (detail : String → DetailOutcome) (registry_id : String) :
    Option GarEntry :=
  match detail registry_id with
  | DetailOutcome.exn => none
  | DetailOutcome.resp status_code resources =>
      if status_code = 200 then
        match firstResource resources with
        | none => none
        | some r =>
            if r.type = some "gar" then
              some { id := registry_id
                     user_alias := r.user_defined_alias.getD "Unknown"
                     url := r.url.getD "Unknown" }
            else none
      else none

/-- The gar_registries list built by cleanup_falcon_registries from the
listed ids and the per-id detail oracle. -/
def garRegistries (detail : String → DetailOutcome) (registry_ids : List String) :
    List GarEntry :=
  registry_ids.filterMap (processRegistryId detail)

/-- Trace of one cleanup_falcon_registries run: the ids= argument of every
delete_registry_entities call issued (in order), and the gar_registries
list the run computed (the entries it counted as registrations to remove). -/
structure CleanupResult where
  deleteCalls : List (List String)
  gar : List GarEntry
deriving DecidableEq

/-- cleanup_falcon_registries, with the read_registry_entities response
(status code and resources ids), the per-id detail oracle, and the
operator's confirmation answer as inputs.  Early returns: failed listing,
no ids, no GAR entries, declined confirmation; otherwise one delete call
with ids=[id] per GAR entry. -/
def cleanup_falcon_registries (read_status : Nat) (registry_ids : List String)
    (detail : String → DetailOutcome) (confirm : String) : CleanupResult :=
  if read_status ≠ 200 then { deleteCalls := [], gar := [] }
  else if registry_ids = [] then { deleteCalls := [], gar := [] }
  else
    let gar := garRegistries detail registry_ids
    if gar = [] then { deleteCalls := [], gar := gar }
    else if pyLower confirm ≠ "y" then { deleteCalls := [], gar := gar }
    else { deleteCalls := gar.map (fun e => [e.id]), gar := gar }

/-- Whether the detail oracle shows the entry with this id as a GAR entry:
the fetch returned 200 and the first resource record has type "gar". -/
def detailIsGar (detail : String → DetailOutcome) (registry_id : String) : Bool :=
  match detail registry_id with
  | DetailOutcome.exn => false
  | DetailOutcome.resp status_code resources =>
      status_code == 200 &&
        (match firstResource resources with
         | some r => r.type == some "gar"
         | none => false)

/-- Trace of main's deprovision branch: cleanup_falcon_registries runs
first and returns; cleanup_service_account is invoked right after it,
unconditionally. -/
structure DeprovisionTrace where
  deleteCalls : List (List String)
  saCleanupAttempted : Bool
deriving DecidableEq

/-- The deprovision branch of main: run the registry cleanup, then the
service-account cleanup. -/
def deprovision_main (read_status : Nat) (registry_ids : List String)
    (detail : String → DetailOutcome) (confirm : String) : DeprovisionTrace :=
  let c := cleanup_falcon_registries read_status registry_ids detail confirm
  { deleteCalls := c.deleteCalls, saCleanupAttempted := true }

/-! ## Credential manager: get_service_account_key -/

/-- Why a gcloud call exited nonzero.  The Python code never inspects the
reason: subprocess.run(check=True) raises CalledProcessError for every
nonzero exit alike. -/
inductive GcloudErrReason where
  | notFound : GcloudErrReason
  | permissionDenied : GcloudErrReason
  | transient : GcloudErrReason
deriving DecidableEq, Fintype

/-- Outcome of the service-accounts describe call. -/
inductive DescribeOutcome where
  | ok : DescribeOutcome
  | failed (reason : GcloudErrReason) : DescribeOutcome
deriving DecidableEq, Fintype

/-- Oracle for one get_service_account_key run: outcome of the describe
check, of the create call, of the keys-create call (which writes the local
key file when it succeeds), and of reading/parsing the key file back. -/
structure KeyEnv where
  describe : DescribeOutcome
  createOk : Bool
  keyCreateOk : Bool
  readParseOk : Bool
deriving DecidableEq, Fintype

/-- Trace of one get_service_account_key run: whether an exception
propagated out of the function, whether the create-service-account call
was attempted, and whether the local key file still exists when the
function returns or raises. -/
structure KeyRun where
  raised : Bool
  createAttempted : Bool
  fileExistsAtEnd : Bool
deriving DecidableEq

/-- The tail of get_service_account_key after the identity is settled:
keys create writes the file (or raises leaving none), the file is read and
parsed (a failure here propagates with the file still on disk), and on
success os.remove deletes the file. -/
def mintKey (created : Bool) (env : KeyEnv) : KeyRun :=
  if ¬ env.keyCreateOk then
    { raised := true, createAttempted := created, fileExistsAtEnd := false }
  else if ¬ env.readParseOk then
    { raised := true, createAttempted := created, fileExistsAtEnd := true }
  else
    { raised := false, createAttempted := created, fileExistsAtEnd := false }

/-- get_service_account_key: describe the service account; any
CalledProcessError (any nonzero exit, whatever the reason) falls into the
except branch, which attempts creation; then mint and read the key. -/
def get_service_account_key (env : KeyEnv) : KeyRun :=
  match env.describe with
  | DescribeOutcome.ok => mintKey false env
  | DescribeOutcome.failed _ =>
      if env.createOk then mintKey true env
      else { raised := true, createAttempted := true, fileExistsAtEnd := false }

/-! ## Registry discovery: list_gcp_registries -/

/-- Outcome of one list_repositories call for one (project, location)
pair: success with the repository resource names found there, or an
exception whose message may contain the SERVICE_DISABLED or the
PERMISSION_DENIED marker (or neither, for any other error). -/
inductive ListRepoOutcome where
  | ok (repoNames : List String) : ListRepoOutcome
  | err (serviceDisabled : Bool) (permissionDenied : Bool) : ListRepoOutcome
deriving DecidableEq

/-- Whether this outcome makes the location loop break (skip the remaining
locations of the project): an error whose message carries either marker. -/
def breaksPartition : ListRepoOutcome → Bool
  | ListRepoOutcome.ok _ => false
  | ListRepoOutcome.err sd pd => sd || pd

/-- An error that carries neither marker: logged, loop continues with the
next location. -/
def isOtherError : ListRepoOutcome → Bool
  | ListRepoOutcome.ok _ => false
  | ListRepoOutcome.err sd pd => !(sd || pd)

/-- One discovered registry: resource name, owning project, region, and
the repository id derived as the last '/'-separated component of the name
(repo.name.split('/')[-1]). -/
structure RegistryInfo where
  name : String
  project_id : String
  location : String
  repository_id : String
deriving DecidableEq

/-- name.split('/')[-1] -/
def repoIdOf (name : String) : String :=
  (name.splitOn "/").getLastD ""

/-- The fixed location list of list_gcp_registries. -/
def locations : List String :=
  ["us-central1", "us-east1", "us-west1", "europe-west1", "asia-east1"]

/-- The inner location loop of list_gcp_registries for one project:
returns the registries found and the list of locations actually queried.
SERVICE_DISABLED and PERMISSION_DENIED errors break out of the loop; other
errors continue with the next location. -/
def scanLocations (project_id : String) (outcome : String → ListRepoOutcome) :
    List String → List RegistryInfo × List String
  | [] => ([], [])
  | loc :: rest =>
      match outcome loc with
      | ListRepoOutcome.ok repoNames =>
          let found := repoNames.map (fun n =>
            { name := n, project_id := project_id, location := loc,
              repository_id := repoIdOf n })
          (found ++ (scanLocations project_id outcome rest).1,
           loc :: (scanLocations project_id outcome rest).2)
      | ListRepoOutcome.err sd pd =>
          if sd || pd then ([], [loc])
          else
            ((scanLocations project_id outcome rest).1,
             loc :: (scanLocations project_id outcome rest).2)

/-- list_gcp_registries over the searched projects, with an oracle giving
the list_repositories outcome per (project, location): returns the
collected registries and the (project, location) pairs actually queried. -/
def list_gcp_registries (projects : List String)
    (outcome : String → String → ListRepoOutcome) :
    List RegistryInfo × List (String × String) :=
  match projects with
  | [] => ([], [])
  | p :: rest =>
      ((scanLocations p (outcome p) locations).1 ++ (list_gcp_registries rest outcome).1,
       ((scanLocations p (outcome p) locations).2).map (fun loc => (p, loc)) ++
         (list_gcp_registries rest outcome).2)

/-! ## Registration: register_with_falcon -/

/-- The service-account key JSON as the code consumes it: every field is
read with dict.get, so each may be absent. -/
structure KeyJson where
  private_key_id : Option String
  private_key : Option String
  client_email : Option String
  client_id : Option String
  project_id : Option String
deriving DecidableEq

/-- The service_account_json object of the request body. -/
structure ServiceAccountJson where
  type : String
  private_key_id : Option String
  private_key : Option String
  client_email : Option String
  client_id : Option String
  project_id : Option String
deriving DecidableEq

/-- The credential.details object of the request body. -/
structure CredentialDetails where
  project_id : String
  scope_name : String
  service_account_json : ServiceAccountJson
deriving DecidableEq

/-- The credential object of the request body. -/
structure Credential where
  details : CredentialDetails
deriving DecidableEq

/-- The full create_registry_entities request body. -/
structure RequestBody where
  type : String
  url : String
  url_uniqueness_key : String
  user_defined_alias : String
  credential : Credential
deriving DecidableEq

/-- The request body register_with_falcon builds for one registry, as
written in the source. -/
def buildRequestBody (service_account_key : KeyJson) (registry : RegistryInfo) :
    RequestBody :=
  { type := "gar"
    url := "https://" ++ registry.location ++ "-docker.pkg.dev/"
    url_uniqueness_key := registry.project_id ++ "/" ++ registry.repository_id
    user_defined_alias := "GAR-" ++ registry.project_id ++ "-" ++ registry.repository_id
    credential :=
      { details :=
          { project_id := registry.project_id
            scope_name := registry.repository_id
            service_account_json :=
              { type := "service_account"
                private_key_id := service_account_key.private_key_id
                private_key := service_account_key.private_key
                client_email := service_account_key.client_email
                client_id := service_account_key.client_id
                project_id := service_account_key.project_id } } } }

/-- Spec section 6 payload shape, written from the spec's words: type
"gar", url "https://<region>-docker.pkg.dev/", url_uniqueness_key
"<projectId>/<repositoryId>", user_defined_alias
"GAR-<projectId>-<repositoryId>", credential.details carrying project_id,
scope_name = repositoryId, and a service_account_json with type
"service_account" and the key's private_key_id, private_key, client_email,
client_id, project_id.  Kept separate from buildRequestBody so that C7 can
compare the two. -/
def specRegistrationPayload (registry : RegistryInfo) (key : KeyJson) : RequestBody :=
  { type := "gar"
    url := "https://" ++ registry.location ++ "-docker.pkg.dev/"
    url_uniqueness_key := registry.project_id ++ "/" ++ registry.repository_id
    user_defined_alias := "GAR-" ++ registry.project_id ++ "-" ++ registry.repository_id
    credential :=
      { details :=
          { project_id := registry.project_id
            scope_name := registry.repository_id
            service_account_json :=
              { type := "service_account"
                private_key_id := key.private_key_id
                private_key := key.private_key
                client_email := key.client_email
                client_id := key.client_id
                project_id := key.project_id } } } }

/-- A create_registry_entities response: status code and the body's error
list (status 200 is the only success value). -/
structure CreateResponse where
  status_code : Nat
  body : List String
deriving DecidableEq

/-- The per-registry result dict register_with_falcon appends. -/
structure RegResult where
  registry : String
  status : Nat
  response : List String
deriving DecidableEq

/-- register_with_falcon: one create_registry_entities call per registry,
in order; each response (whatever its status) is recorded as that
registry's result and the loop continues.  Returns (results, issued
request bodies). -/
def register_with_falcon (registries : List RegistryInfo) (service_account_key : KeyJson)
    (resp : RegistryInfo → CreateResponse) : List RegResult × List RequestBody :=
  match registries with
  | [] => ([], [])
  | r :: rest =>
      ({ registry := r.name, status := (resp r).status_code,
         response := (resp r).body } ::
           (register_with_falcon rest service_account_key resp).1,
       buildRequestBody service_account_key r ::
         (register_with_falcon rest service_account_key resp).2)

/-! ## Provision workflow: provision_registries -/

/-- The dedup loop of provision_registries: walk the discovered registries
keeping a processed set, and call grant_required_roles on each project id
the first time it is seen.  Returns the project ids passed to
grant_required_roles, in call order. -/
def grantPass : List RegistryInfo → List String → List String
  | [], _ => []
  | r :: rest, processed =>
      if r.project_id ∈ processed then grantPass rest processed
      else r.project_id :: grantPass rest (r.project_id :: processed)

/-- Trace of one provision_registries run: whether
get_service_account_key was called (a credential minted), the project ids
passed to grant_required_roles, the create_registry_entities request
bodies issued, and the per-registry results. -/
structure ProvisionTrace where
  keyMinted : Bool
  grantCalls : List String
  createCalls : List RequestBody
  results : List RegResult
deriving DecidableEq

/-- provision_registries: if discovery found nothing, return at once
("No registries found") — no key, no grants, no registrations.  Otherwise
mint the key, grant roles once per distinct project, and register every
registry. -/
def provision_registries (discovered : List RegistryInfo) (key : KeyJson)
    (resp : RegistryInfo → CreateResponse) : ProvisionTrace :=
  if discovered = [] then
    { keyMinted := false, grantCalls := [], createCalls := [], results := [] }
  else
    let out := register_with_falcon discovered key resp
    { keyMinted := true
      grantCalls := grantPass discovered []
      createCalls := out.2
      results := out.1 }

/-! ## Concrete oracles used to evaluate the theorems on closed inputs -/

/-- A detail oracle for two listed ids: reg-a is a GAR entry, reg-b has
another provider type. -/
def detailOracleW : String → DetailOutcome := fun registry_id =>
  if registry_id = "reg-a" then
    DetailOutcome.resp 200 (some
      [{ type := some "gar", user_defined_alias := some "GAR-p1-r1",
         url := some "https://us-central1-docker.pkg.dev/" }])
  else
    DetailOutcome.resp 200 (some
      [{ type := some "quay", user_defined_alias := none, url := none }])

/-- A discovery oracle for one project: the first location succeeds with
one repository, every later one fails with the SERVICE_DISABLED marker. -/
def outcomeW : String → ListRepoOutcome := fun loc =>
  if loc = "us-central1" then
    ListRepoOutcome.ok ["projects/p1/locations/us-central1/repositories/r1"]
  else ListRepoOutcome.err true false

/-- Two discovered registries sharing project p1 with distinct
repositories. -/
def discoveredW : List RegistryInfo :=
  [{ name := "projects/p1/locations/us-central1/repositories/r1",
     project_id := "p1", location := "us-central1", repository_id := "r1" },
   { name := "projects/p1/locations/us-east1/repositories/r2",
     project_id := "p1", location := "us-east1", repository_id := "r2" }]

/-- A complete service-account key record. -/
def keyW : KeyJson :=
  { private_key_id := some "kid", private_key := some "pk",
    client_email := some "sa@p1.iam.gserviceaccount.com",
    client_id := some "cid", project_id := some "p1" }

/-- A Falcon create oracle that accepts every registration. -/
def respW : RegistryInfo → CreateResponse := fun _ =>
  { status_code := 200, body := [] }

/-! ## Helper lemmas -/

/-- An id the per-id cleanup loop turns into a GarEntry was fetched with
status 200 and a first detail record of type "gar", and the entry keeps
that id. -/
theorem processRegistryId_isGar {detail : String → DetailOutcome}
    {registry_id : String} {e : GarEntry}
    (h : processRegistryId detail registry_id = some e) :
    detailIsGar detail registry_id = true ∧ e.id = registry_id := by
  cases hd : detail registry_id with
  | exn => simp [processRegistryId, hd] at h
  | resp status_code resources =>
      by_cases hs : status_code = 200
      · subst hs
        cases hr : firstResource resources with
        | none => simp [processRegistryId, hd, hr] at h
        | some r =>
            by_cases ht : r.type = some "gar"
            · have he : e = { id := registry_id,
                              user_alias := r.user_defined_alias.getD "Unknown",
                              url := r.url.getD "Unknown" } := by
                have := h
                simp [processRegistryId, hd, hr, ht] at this
                exact this.symm
              subst he
              simp [detailIsGar, hd, hr, ht]
            · simp [processRegistryId, hd, hr, ht] at h
      · simp [processRegistryId, hd, hs] at h

/-- Every member of the gar_registries list comes from a detail fetch that
showed type "gar". -/
theorem mem_garRegistries_isGar {detail : String → DetailOutcome}
    {registry_ids : List String} {e : GarEntry}
    (h : e ∈ garRegistries detail registry_ids) :
    detailIsGar detail e.id = true := by
  rcases List.mem_filterMap.mp h with ⟨registry_id, _, hp⟩
  rcases processRegistryId_isGar hp with ⟨hg, hid⟩
  rw [hid]
  exact hg

/-- register_with_falcon issues the per-registry request bodies in order
and records one result per registry, whatever each status code is. -/
theorem register_with_falcon_eq (registries : List RegistryInfo) (key : KeyJson)
    (resp : RegistryInfo → CreateResponse) :
    register_with_falcon registries key resp =
      (registries.map (fun r =>
          { registry := r.name, status := (resp r).status_code,
            response := (resp r).body }),
       registries.map (fun r => buildRequestBody key r)) := by
  induction registries with
  | nil => rfl
  | cons r rest ih => simp [register_with_falcon, ih]

/-- Membership in the grant pass: a project id is granted exactly when it
occurs in the discovered list and was not already processed. -/
theorem grantPass_mem (regs : List RegistryInfo) :
    ∀ (processed : List String) (p : String),
      p ∈ grantPass regs processed ↔
        p ∈ regs.map RegistryInfo.project_id ∧ p ∉ processed := by
  induction regs with
  | nil => intro processed p; simp [grantPass]
  | cons r rest ih =>
      intro processed p
      by_cases hmem : r.project_id ∈ processed
      · rw [grantPass, if_pos hmem, ih]
        simp only [List.map_cons, List.mem_cons]
        constructor
        · rintro ⟨hp, hnp⟩; exact ⟨Or.inr hp, hnp⟩
        · rintro ⟨hp | hp, hnp⟩
          · exact absurd (hp ▸ hmem) hnp
          · exact ⟨hp, hnp⟩
      · rw [grantPass, if_neg hmem]
        simp only [List.map_cons, List.mem_cons]
        constructor
        · intro hp
          rcases hp with h1 | h2
          · exact ⟨Or.inl h1, h1 ▸ hmem⟩
          · rcases (ih _ p).mp h2 with ⟨hin, hnot⟩
            exact ⟨Or.inr hin, fun hc => hnot (List.mem_cons_of_mem _ hc)⟩
        · rintro ⟨h1 | h1, hnp⟩
          · exact Or.inl h1
          · by_cases hpr : p = r.project_id
            · exact Or.inl hpr
            · refine Or.inr ((ih _ p).mpr ⟨h1, ?_⟩)
              intro hc
              rcases List.mem_cons.mp hc with he | he
              · exact hpr he
              · exact hnp he

/-- The grant pass never repeats a project id. -/
theorem grantPass_nodup (regs : List RegistryInfo) :
    ∀ processed : List String, (grantPass regs processed).Nodup := by
  induction regs with
  | nil => intro processed; simp [grantPass]
  | cons r rest ih =>
      intro processed
      by_cases hmem : r.project_id ∈ processed
      · rw [grantPass, if_pos hmem]; exact ih processed
      · rw [grantPass, if_neg hmem]
        refine List.nodup_cons.mpr ⟨?_, ih _⟩
        intro hc
        exact ((grantPass_mem rest _ r.project_id).mp hc).2 (List.mem_cons_self _ _)

/-- After any run of non-breaking locations, a SERVICE_DISABLED or
PERMISSION_DENIED error stops the location loop: nothing after it in that
project is queried. -/
theorem scanLocations_break (project_id : String) (outcome : String → ListRepoOutcome) :
    ∀ (pre : List String) (loc : String) (rest : List String),
      (∀ l ∈ pre, breaksPartition (outcome l) = false) →
      breaksPartition (outcome loc) = true →
      (scanLocations project_id outcome (pre ++ loc :: rest)).2 = pre ++ [loc] := by
  intro pre
  induction pre with
  | nil =>
      intro loc rest _ hbr
      cases ho : outcome loc with
      | ok repoNames => rw [ho] at hbr; simp [breaksPartition] at hbr
      | err sd pd =>
          rw [ho] at hbr
          simp only [breaksPartition] at hbr
          simp [scanLocations, ho, hbr]
  | cons l pre ih =>
      intro loc rest hpre hbr
      have hl : breaksPartition (outcome l) = false := hpre l (List.mem_cons_self _ _)
      have hrest : ∀ x ∈ pre, breaksPartition (outcome x) = false :=
        fun x hx => hpre x (List.mem_cons_of_mem _ hx)
      cases ho : outcome l with
      | ok repoNames =>
          simp [scanLocations, ho, ih loc rest hrest hbr]
      | err sd pd =>
          rw [ho] at hl
          simp only [breaksPartition] at hl
          simp [scanLocations, ho, hl, ih loc rest hrest hbr]

/-- An error without either marker only skips its own location: the loop
continues with the remaining locations. -/
theorem scanLocations_other (project_id : String) (outcome : String → ListRepoOutcome)
    (loc : String) (rest : List String) (h : isOtherError (outcome loc) = true) :
    (scanLocations project_id outcome (loc :: rest)).2 =
      loc :: (scanLocations project_id outcome rest).2 := by
  cases ho : outcome loc with
  | ok repoNames => rw [ho] at h; simp [isOtherError] at h
  | err sd pd =>
      rw [ho] at h
      simp only [isOtherError] at h
      have hb : (sd || pd) = false := by simpa using h
      simp [scanLocations, ho, hb]

/-- The queried (project, location) pairs of a full discovery run are the
concatenation, project by project, of each project's own location scan:
one project's outcomes never affect another's. -/
theorem list_gcp_registries_queried (projects : List String)
    (outcome : String → String → ListRepoOutcome) :
    (list_gcp_registries projects outcome).2 =
      projects.flatMap (fun p =>
        ((scanLocations p (outcome p) locations).2).map (fun loc => (p, loc))) := by
  induction projects with
  | nil => rfl
  | cons p rest ih => simp [list_gcp_registries, ih]

/-! ## Claims -/

/-- C1: in every deprovision run, every entry counted among the
registrations to remove, and every id passed to a delete call, comes from
a detail fetch that returned status 200 with a first record of
type "gar"; an entry of any other type is never selected. -/
theorem gar_only_deletion_candidates (read_status : Nat) (registry_ids : List String)
    (detail : String → DetailOutcome) (confirm : String) :
    (∀ e ∈ (cleanup_falcon_registries read_status registry_ids detail confirm).gar,
        detailIsGar detail e.id = true) ∧
    (∀ call ∈ (cleanup_falcon_registries read_status registry_ids detail confirm).deleteCalls,
        ∀ registry_id ∈ call, detailIsGar detail registry_id = true) := by
  have hgar : (cleanup_falcon_registries read_status registry_ids detail confirm).gar = []
      ∨ (cleanup_falcon_registries read_status registry_ids detail confirm).gar
        = garRegistries detail registry_ids := by
    unfold cleanup_falcon_registries
    split_ifs <;>
      rcases eq_or_ne (garRegistries detail registry_ids) [] with h | h <;> simp [h]
  have hdel :
      (cleanup_falcon_registries read_status registry_ids detail confirm).deleteCalls = []
      ∨ (cleanup_falcon_registries read_status registry_ids detail confirm).deleteCalls
        = (garRegistries detail registry_ids).map (fun e => [e.id]) := by
    unfold cleanup_falcon_registries
    split_ifs <;>
      rcases eq_or_ne (garRegistries detail registry_ids) [] with h | h <;> simp [h]
  constructor
  · intro e he
    rcases hgar with h | h
    · rw [h] at he; exact absurd he (List.not_mem_nil e)
    · rw [h] at he; exact mem_garRegistries_isGar he
  · intro call hc registry_id hr
    rcases hdel with h | h
    · rw [h] at hc; exact absurd hc (List.not_mem_nil call)
    · rw [h] at hc
      rcases List.mem_map.mp hc with ⟨e, he, hce⟩
      have hid : registry_id = e.id := List.mem_singleton.mp (hce ▸ hr)
      rw [hid]
      exact mem_garRegistries_isGar he

/-- C1 witness: with reg-a a GAR entry, reg-b another type, and an
affirmative answer, the one deleted id is GAR-typed. -/
theorem gar_only_deletion_candidates_witness :
    detailIsGar detailOracleW "reg-a" = true :=
  (gar_only_deletion_candidates 200 ["reg-a", "reg-b"] detailOracleW "y").2
    ["reg-a"] (by decide) "reg-a" (by decide)

/-- C2 counterexample: on the run where the key is minted but reading or
parsing the key file fails, get_service_account_key raises and the local
key file still exists on disk — the claim that the file is deleted on
every failure path is false at this input. -/
theorem key_file_survives_parse_failure :
    (get_service_account_key
        { describe := DescribeOutcome.ok, createOk := true,
          keyCreateOk := true, readParseOk := false }).raised = true ∧
    (get_service_account_key
        { describe := DescribeOutcome.ok, createOk := true,
          keyCreateOk := true, readParseOk := false }).fileExistsAtEnd = true := by
  decide

/-- C2 amended: the key file is deleted before return on the success path;
but when the key file was written and reading or parsing it fails, the
exception propagates with the file still on disk. -/
theorem key_file_removed_on_success_only :
    ∀ env : KeyEnv,
      ((get_service_account_key env).raised = false →
        (get_service_account_key env).fileExistsAtEnd = false) ∧
      ((env.describe = DescribeOutcome.ok ∨ env.createOk = true) →
        env.keyCreateOk = true → env.readParseOk = false →
        (get_service_account_key env).raised = true ∧
        (get_service_account_key env).fileExistsAtEnd = true) := by
  decide

/-- C2 witness: on a fully successful run the key file is gone at
return. -/
theorem key_file_removed_on_success_only_witness :
    (get_service_account_key
        { describe := DescribeOutcome.ok, createOk := true,
          keyCreateOk := true, readParseOk := true }).fileExistsAtEnd = false :=
  (key_file_removed_on_success_only
      { describe := DescribeOutcome.ok, createOk := true,
        keyCreateOk := true, readParseOk := true }).1 (by decide)

/-- C3 counterexample: when the describe check fails with permission
denied, the code still attempts identity creation and the run proceeds —
the claim that only a not-found failure triggers creation, and that any
other failure is propagated as fatal, is false at this input. -/
theorem create_attempted_on_permission_denied :
    (get_service_account_key
        { describe := DescribeOutcome.failed GcloudErrReason.permissionDenied,
          createOk := true, keyCreateOk := true, readParseOk := true }).createAttempted
      = true ∧
    (get_service_account_key
        { describe := DescribeOutcome.failed GcloudErrReason.permissionDenied,
          createOk := true, keyCreateOk := true, readParseOk := true }).raised
      = false := by
  decide

/-- C3 amended: every failure of the describe check, whatever its reason
(not-found, permission denied, transient), triggers an identity-creation
attempt; the run becomes fatal only if the creation, the key minting, or
the key read itself fails. -/
theorem describe_failure_always_creates :
    ∀ (env : KeyEnv) (reason : GcloudErrReason),
      env.describe = DescribeOutcome.failed reason →
      (get_service_account_key env).createAttempted = true ∧
      ((get_service_account_key env).raised = true ↔
        (env.createOk = false ∨ env.keyCreateOk = false ∨ env.readParseOk = false)) := by
  decide

/-- C3 witness: a not-found describe failure leads to a creation
attempt. -/
theorem describe_failure_always_creates_witness :
    (get_service_account_key
        { describe := DescribeOutcome.failed GcloudErrReason.notFound,
          createOk := true, keyCreateOk := true, readParseOk := true }).createAttempted
      = true :=
  (describe_failure_always_creates
      { describe := DescribeOutcome.failed GcloudErrReason.notFound,
        createOk := true, keyCreateOk := true, readParseOk := true }
      GcloudErrReason.notFound (by decide)).1

/-- C4: when GAR entries were found and the operator's answer does not
lower-case to "y", the deprovision branch of main issues zero delete
calls and still runs the service-account cleanup afterwards. -/
theorem decline_no_deletes_sa_cleanup_still (registry_ids : List String)
    (detail : String → DetailOutcome) (confirm : String)
    (hfound : garRegistries detail registry_ids ≠ [])
    (hdecl : pyLower confirm ≠ "y") :
    (deprovision_main 200 registry_ids detail confirm).deleteCalls = [] ∧
    (deprovision_main 200 registry_ids detail confirm).saCleanupAttempted = true := by
  have hids : registry_ids ≠ [] := by
    intro h
    exact hfound (by simp [h, garRegistries])
  refine ⟨?_, rfl⟩
  simp [deprovision_main, cleanup_falcon_registries, hids, hfound, hdecl]

/-- C4 witness: with one GAR entry found and the answer "n", no delete
call is issued and the service-account cleanup still runs. -/
theorem decline_no_deletes_sa_cleanup_still_witness :
    (deprovision_main 200 ["reg-a", "reg-b"] detailOracleW "n").deleteCalls = [] ∧
    (deprovision_main 200 ["reg-a", "reg-b"] detailOracleW "n").saCleanupAttempted = true :=
  decline_no_deletes_sa_cleanup_still ["reg-a", "reg-b"] detailOracleW "n"
    (by decide) (by decide)

/-- C5: when discovery returns no registries, provision_registries ends in
the nothing-to-do state: no credential minted, no grant call, no
registration call. -/
theorem empty_discovery_short_circuits (key : KeyJson)
    (resp : RegistryInfo → CreateResponse) :
    provision_registries [] key resp =
      { keyMinted := false, grantCalls := [], createCalls := [],
        results := [] } := rfl

/-- C6: register_with_falcon issues exactly one create call per discovered
registry, in order, and records each registry's own status and body as its
per-item result — a non-success response for one registry changes nothing
about the calls made and results recorded for the others. -/
theorem register_one_call_per_descriptor (registries : List RegistryInfo)
    (key : KeyJson) (resp : RegistryInfo → CreateResponse) :
    register_with_falcon registries key resp =
      (registries.map (fun r =>
          { registry := r.name, status := (resp r).status_code,
            response := (resp r).body }),
       registries.map (fun r => buildRequestBody key r)) :=
  register_with_falcon_eq registries key resp

/-- C7: the request body built for a registry and a key equals exactly the
payload shape of the spec. -/
theorem payload_matches_spec_shape (registry : RegistryInfo) (key : KeyJson) :
    buildRequestBody key registry = specRegistrationPayload registry key := rfl

/-- C8: during discovery, a SERVICE_DISABLED or PERMISSION_DENIED error
skips the remaining locations of that project only; any other error moves
on to the next location; and the full run visits every project, each
project's queried locations depending only on its own outcomes. -/
theorem discovery_error_handling :
    (∀ (projects : List String) (outcome : String → String → ListRepoOutcome),
        (list_gcp_registries projects outcome).2 =
          projects.flatMap (fun p =>
            ((scanLocations p (outcome p) locations).2).map (fun loc => (p, loc)))) ∧
    (∀ (project_id : String) (outcome : String → ListRepoOutcome)
        (pre : List String) (loc : String) (rest : List String),
        (∀ l ∈ pre, breaksPartition (outcome l) = false) →
        breaksPartition (outcome loc) = true →
        (scanLocations project_id outcome (pre ++ loc :: rest)).2 = pre ++ [loc]) ∧
    (∀ (project_id : String) (outcome : String → ListRepoOutcome)
        (loc : String) (rest : List String),
        isOtherError (outcome loc) = true →
        (scanLocations project_id outcome (loc :: rest)).2 =
          loc :: (scanLocations project_id outcome rest).2) :=
  ⟨list_gcp_registries_queried, scanLocations_break, scanLocations_other⟩

/-- C8 witness: a SERVICE_DISABLED error at the second location stops the
scan of that project right there. -/
theorem discovery_error_handling_witness :
    (scanLocations "p1" outcomeW
        (["us-central1"] ++ "us-east1" ::
          ["us-west1", "europe-west1", "asia-east1"])).2 =
      ["us-central1"] ++ ["us-east1"] :=
  discovery_error_handling.2.1 "p1" outcomeW ["us-central1"] "us-east1"
    ["us-west1", "europe-west1", "asia-east1"] (by decide) (by decide)

/-- C9: for a non-empty discovered set, provision mints the credential,
grants roles exactly once per distinct project id in the set, and issues
one create call per descriptor. -/
theorem one_grant_pass_per_project (discovered : List RegistryInfo) (key : KeyJson)
    (resp : RegistryInfo → CreateResponse) (hne : discovered ≠ []) :
    (provision_registries discovered key resp).keyMinted = true ∧
    (∀ p : String,
        (provision_registries discovered key resp).grantCalls.count p =
          if p ∈ discovered.map RegistryInfo.project_id then 1 else 0) ∧
    (provision_registries discovered key resp).createCalls.length =
      discovered.length := by
  have hp : provision_registries discovered key resp =
      { keyMinted := true, grantCalls := grantPass discovered [],
        createCalls := (register_with_falcon discovered key resp).2,
        results := (register_with_falcon discovered key resp).1 } := by
    simp [provision_registries, hne]
  rw [hp]
  refine ⟨rfl, ?_, ?_⟩
  · intro p
    by_cases hmem : p ∈ discovered.map RegistryInfo.project_id
    · rw [if_pos hmem]
      exact List.count_eq_one_of_mem (grantPass_nodup discovered [])
        ((grantPass_mem discovered [] p).mpr ⟨hmem, by simp⟩)
    · rw [if_neg hmem]
      refine List.count_eq_zero.mpr ?_
      intro hc
      exact hmem ((grantPass_mem discovered [] p).mp hc).1
  · rw [register_with_falcon_eq]
    simp

/-- C9 witness: two descriptors sharing project p1 get one grant pass. -/
theorem one_grant_pass_per_project_witness :
    (provision_registries discoveredW keyW respW).grantCalls.count "p1" =
      if "p1" ∈ discoveredW.map RegistryInfo.project_id then 1 else 0 :=
  (one_grant_pass_per_project discoveredW keyW respW (by decide)).2.1 "p1"

/-- C10: with GAR entries found, deletion proceeds exactly when the
operator's answer lower-cases to "y"; in particular "yes", "Y " and the
empty answer abort removal. -/
theorem confirm_gate_iff_lower_y (registry_ids : List String)
    (detail : String → DetailOutcome) (s : String)
    (hfound : garRegistries detail registry_ids ≠ []) :
    (((cleanup_falcon_registries 200 registry_ids detail s).deleteCalls ≠ []) ↔
        pyLower s = "y") ∧
    (cleanup_falcon_registries 200 registry_ids detail "yes").deleteCalls = [] ∧
    (cleanup_falcon_registries 200 registry_ids detail "Y ").deleteCalls = [] ∧
    (cleanup_falcon_registries 200 registry_ids detail "").deleteCalls = [] := by
  have hids : registry_ids ≠ [] := by
    intro h
    exact hfound (by simp [h, garRegistries])
  have key : ∀ t : String,
      (cleanup_falcon_registries 200 registry_ids detail t).deleteCalls =
        if pyLower t = "y" then
          (garRegistries detail registry_ids).map (fun e => [e.id])
        else [] := by
    intro t
    by_cases ht : pyLower t = "y"
    · simp [cleanup_falcon_registries, hids, hfound, ht]
    · simp [cleanup_falcon_registries, hids, hfound, ht]
  refine ⟨?_, ?_, ?_, ?_⟩
  · rw [key s]
    constructor
    · intro hne
      by_contra hs
      rw [if_neg hs] at hne
      exact hne rfl
    · intro hs
      rw [if_pos hs]
      intro hm
      exact hfound (List.map_eq_nil_iff.mp hm)
  · rw [key "yes", if_neg (by decide)]
  · rw [key "Y ", if_neg (by decide)]
  · rw [key "", if_neg (by decide)]

/-- C10 witness: with a GAR entry found, the answer "y" makes deletion
proceed. -/
theorem confirm_gate_iff_lower_y_witness :
    (cleanup_falcon_registries 200 ["reg-a", "reg-b"] detailOracleW "y").deleteCalls
      ≠ [] :=
  ((confirm_gate_iff_lower_y ["reg-a", "reg-b"] detailOracleW "y" (by decide)).1).mpr
    (by decide)

end RegisterRegistries
